import Mathlib

/-!
Verification of the image-generation script
src/slide-deck/ai-dev-practice/generate_image.py.

The script tries to import Pillow; on ImportError it prints a diagnostic
to standard error and exits with status 1. Otherwise it builds a 1600x900
white RGB canvas, draws a blue filled rectangle from
(x_start, y_start) = ((1600-600)//2, (900-600)//2) to
(x_end, y_end) = (x_start+600, y_start+600), saves the canvas as
"test.png" and prints a confirmation line to standard output.
-/

namespace GenerateImage

/-- An RGB color triple, one byte per channel. -/
structure RGB where
  r : Nat
  g : Nat
  b : Nat
deriving DecidableEq

/-- Pillow color name "white" is (255, 255, 255). -/
def whiteColor : RGB := ⟨255, 255, 255⟩

/-- Pillow color name "blue" is (0, 0, 255). -/
def blueColor : RGB := ⟨0, 0, 255⟩

/-- An in-memory bitmap: width, height, and a pixel map. -/
structure Img where
  w : Nat
  h : Nat
  pix : Nat → Nat → RGB

/-- Models Pillow Image.new("RGB", (w, h), c): a w x h canvas uniformly
filled with color c. -/
def imageNew (w h : Nat) (c : RGB) : Img :=
  { w := w, h := h, pix := fun _ _ => c }

/-- Models Pillow ImageDraw.Draw(img).rectangle([x0, y0, x1, y1], fill c):
paints every pixel (x, y) with x0 ≤ x ≤ x1 and y0 ≤ y ≤ y1. Pillow
includes both corner coordinates (its documented inclusive convention,
also recorded in the spec as the accepted 601x601 quirk). -/
def rectangle (img : Img) (x0 y0 x1 y1 : Nat) (c : RGB) : Img :=
  { img with
      pix := fun x y =>
        if x0 ≤ x ∧ x ≤ x1 ∧ y0 ≤ y ∧ y ≤ y1 then c else img.pix x y }

/-- Source line 9: width = 1600. -/
def width : Nat := 1600

/-- Source line 9: height = 900. -/
def height : Nat := 900

/-- Source line 14: square_size = 600. -/
def square_size : Nat := 600

/-- Source line 15: x_start = (width - square_size) // 2. Python floor
division on nonnegative operands coincides with Nat division. -/
def x_start : Nat := (width - square_size) / 2

/-- Source line 16: y_start = (height - square_size) // 2. -/
def y_start : Nat := (height - square_size) / 2

/-- Source line 17: x_end = x_start + square_size. -/
def x_end : Nat := x_start + square_size

/-- Source line 18: y_end = y_start + square_size. -/
def y_end : Nat := y_start + square_size

/-- The canvas after line 20: white 1600x900 canvas with the blue
rectangle drawn on it. This is the image saved to "test.png". -/
def finalImage : Img :=
  rectangle (imageNew width height whiteColor) x_start y_start x_end y_end blueColor

/-- Source line 22: the output file name. -/
def outputFileName : String := "test.png"

/-- Source line 5: the diagnostic printed to standard error when the
Pillow import fails. -/
def pillowMissingMsg : String :=
  "Pillow library not found. Please install it using \x27pip install Pillow\x27"

/-- Source line 23: the confirmation printed to standard output. -/
def successMsg : String :=
  "Image \x27test.png\x27 generated successfully."

/-- Kinds of runtime exception relevant to the script. -/
inductive ExcKind
  | importError
  | osError
  | memoryError
  | otherError
deriving DecidableEq

/-- The only exception handler in the program is the try/except at source
lines 2-6, and its except clause names exactly ImportError. -/
def caughtByImportHandler : ExcKind → Bool
  | .importError => true
  | _ => false

/-- The environment a run starts in. `pillowAvailable` is whether the
Pillow import at line 3 succeeds; `saveFault` is an exception raised by
image.save at line 22, if any (none for a normal run); `files` is the
prior content of the working directory; `now` and `seed` stand for
ambient time and randomness, which the script never reads. -/
structure Env where
  pillowAvailable : Bool
  saveFault : Option ExcKind
  files : String → Option Img
  now : Nat
  seed : Nat

/-- The observable outcome of one run: exit status, the lines written to
standard output and standard error, the resulting directory content, and
the exception that escaped uncaught, if any. -/
structure RunResult where
  exitCode : Nat
  stdoutLines : List String
  stderrLines : List String
  files : String → Option Img
  unhandledFault : Option ExcKind

/-- The whole script as a function of its environment. If the import
fails, lines 5-6 print the diagnostic to standard error and exit with
status 1. Otherwise the canvas is built and drawn (lines 9-20); a fault
raised by image.save (line 22) has no enclosing handler, so it escapes
uncaught, before the file is written and before line 23 runs. On a
normal run the image is saved under "test.png", overwriting any prior
file of that name, and the confirmation is printed. -/
def run (env : Env) : RunResult :=
  if env.pillowAvailable then
    match env.saveFault with
    | some k =>
        { exitCode := 1
          stdoutLines := []
          stderrLines := []
          files := env.files
          unhandledFault := some k }
    | none =>
        { exitCode := 0
          stdoutLines := [successMsg]
          stderrLines := []
          files := fun n => if n = outputFileName then some finalImage else env.files n
          unhandledFault := none }
  else
    { exitCode := 1
      stdoutLines := []
      stderrLines := [pillowMissingMsg]
      files := env.files
      unhandledFault := none }

/-- A concrete environment for witnesses: Pillow present, no fault,
empty directory. -/
def env0 : Env :=
  { pillowAvailable := true, saveFault := none, files := fun _ => none,
    now := 0, seed := 0 }

/-- A second concrete environment differing from env0 in time, seed and
prior directory content. -/
def env1 : Env :=
  { pillowAvailable := true, saveFault := none,
    files := fun n => if n = outputFileName then some (imageNew 1 1 blueColor) else none,
    now := 12345, seed := 678 }

/-- A concrete environment in which the Pillow import fails. -/
def envNoPillow : Env :=
  { pillowAvailable := false, saveFault := none, files := fun _ => none,
    now := 0, seed := 0 }

/-- A concrete environment in which image.save raises an OS error. -/
def envSaveFault : Env :=
  { pillowAvailable := true, saveFault := some .osError,
    files := fun _ => none, now := 0, seed := 0 }

/-- The pixel map of the final canvas, in closed form: blue on the
inclusive box [500, 1100] x [150, 750], white elsewhere. -/
theorem finalImage_pix (x y : Nat) :
    finalImage.pix x y =
      if 500 ≤ x ∧ x ≤ 1100 ∧ 150 ≤ y ∧ y ≤ 750 then blueColor else whiteColor := by
  simp only [finalImage, rectangle, imageNew, x_start, y_start, x_end, y_end,
    width, height, square_size]

/-- C2. The bounding box of the drawn square comes from floor division of
the fixed constants: x_start = (1600 - 600) / 2 = 500,
y_start = (900 - 600) / 2 = 150, x_end = x_start + 600 = 1100,
y_end = y_start + 600 = 750, so the four corners are (500, 150),
(1100, 150), (500, 750), (1100, 750). -/
theorem square_coordinates :
    x_start = (1600 - 600) / 2 ∧ x_start = 500 ∧
    y_start = (900 - 600) / 2 ∧ y_start = 150 ∧
    x_end = x_start + 600 ∧ x_end = 1100 ∧
    y_end = y_start + 600 ∧ y_end = 750 := by
  decide

/-- C10. The drawn rectangle lies entirely within the canvas bounds even
with inclusive endpoints: x_end = 1100 ≤ 1599 = width - 1 and
y_end = 750 ≤ 899 = height - 1 (and the start coordinates are
nonnegative), so no part of the square is clipped. -/
theorem square_within_bounds :
    0 ≤ x_start ∧ x_end ≤ width - 1 ∧ 0 ≤ y_start ∧ y_end ≤ height - 1 ∧
    x_end ≤ 1599 ∧ y_end ≤ 899 := by
  decide

/-- C9. Pixelwise characterization of the final canvas: inside the canvas
a pixel is blue exactly when 500 ≤ x ≤ 1100 and 150 ≤ y ≤ 750, and every
pixel is either blue or white. -/
theorem pixel_characterization :
    ∀ x y : Nat, x < width → y < height →
      (finalImage.pix x y = blueColor ↔
        (500 ≤ x ∧ x ≤ 1100 ∧ 150 ≤ y ∧ y ≤ 750)) ∧
      (finalImage.pix x y = blueColor ∨ finalImage.pix x y = whiteColor) := by
  intro x y _ _
  rw [finalImage_pix]
  by_cases hc : 500 ≤ x ∧ x ≤ 1100 ∧ 150 ≤ y ∧ y ≤ 750
  · simp [hc]
  · simp [hc, whiteColor, blueColor]

/-- Witness for C9 at the canvas center (800, 450). -/
theorem pixel_characterization_witness :
    (finalImage.pix 800 450 = blueColor ↔
      (500 ≤ 800 ∧ 800 ≤ 1100 ∧ 150 ≤ 450 ∧ 450 ≤ 750)) ∧
    (finalImage.pix 800 450 = blueColor ∨ finalImage.pix 800 450 = whiteColor) :=
  pixel_characterization 800 450 (by decide) (by decide)

/-- C4. The rectangle fill includes both endpoint coordinates: the
corners (x_start, y_start) and (x_end, y_end) are both painted, every
pixel with 500 ≤ x ≤ 1100 and 150 ≤ y ≤ 750 is blue, and the painted
span is 601 pixels wide and 601 pixels tall. -/
theorem inclusive_endpoints :
    finalImage.pix x_start y_start = blueColor ∧
    finalImage.pix x_end y_end = blueColor ∧
    x_end - x_start + 1 = 601 ∧ y_end - y_start + 1 = 601 ∧
    (∀ x y : Nat, 500 ≤ x → x ≤ 1100 → 150 ≤ y → y ≤ 750 →
      finalImage.pix x y = blueColor) := by
  refine ⟨by rw [finalImage_pix]; decide, by rw [finalImage_pix]; decide,
    by decide, by decide, ?_⟩
  intro x y h1 h2 h3 h4
  rw [finalImage_pix]
  simp [h1, h2, h3, h4]

/-- Witness for C4 at the far corner (1100, 750), painted because both
endpoints are inclusive. -/
theorem inclusive_endpoints_witness :
    finalImage.pix 1100 750 = blueColor :=
  inclusive_endpoints.2.2.2.2 1100 750 (by decide) (by decide) (by decide) (by decide)

/-- C1. A successful run (Pillow importable, no save fault) writes the
file "test.png" holding a 1600x900 canvas on which a blue square of side
600 (in coordinate extent; 601 pixels including both endpoints, see the
inclusive-endpoint theorem) is centered both horizontally and
vertically: the left margin equals the right margin and the top margin
equals the bottom margin, and every canvas pixel is blue or white. -/
theorem output_contract (e : Env)
    (h1 : e.pillowAvailable = true) (h2 : e.saveFault = none) :
    (run e).files outputFileName = some finalImage ∧
    finalImage.w = 1600 ∧ finalImage.h = 900 ∧
    x_end - x_start = 600 ∧ y_end - y_start = 600 ∧
    x_start = width - x_end ∧ y_start = height - y_end ∧
    (∀ x y : Nat, x < width → y < height →
      finalImage.pix x y = blueColor ∨ finalImage.pix x y = whiteColor) := by
  refine ⟨by simp [run, h1, h2], by decide, by decide, by decide, by decide,
    by decide, by decide, ?_⟩
  intro x y _ _
  rw [finalImage_pix]
  by_cases hc : 500 ≤ x ∧ x ≤ 1100 ∧ 150 ≤ y ∧ y ≤ 750 <;> simp [hc]

/-- Witness for C1 in the concrete environment env0. -/
theorem output_contract_witness :
    (run env0).files outputFileName = some finalImage ∧
    finalImage.w = 1600 ∧ finalImage.h = 900 ∧
    x_end - x_start = 600 ∧ y_end - y_start = 600 ∧
    x_start = width - x_end ∧ y_start = height - y_end ∧
    (∀ x y : Nat, x < width → y < height →
      finalImage.pix x y = blueColor ∨ finalImage.pix x y = whiteColor) :=
  output_contract env0 rfl rfl

/-- C3. When the Pillow import fails, the run writes exactly the
documented diagnostic line to standard error, exits with status 1,
writes nothing to standard output, leaves the directory untouched, and
performs no further action (no uncaught fault either). -/
theorem missing_pillow (e : Env) (h : e.pillowAvailable = false) :
    (run e).exitCode = 1 ∧
    (run e).stderrLines =
      ["Pillow library not found. Please install it using \x27pip install Pillow\x27"] ∧
    (run e).stdoutLines = [] ∧
    (run e).files = e.files ∧
    (run e).unhandledFault = none := by
  simp [run, h, pillowMissingMsg]

/-- Witness for C3 in the concrete environment envNoPillow. -/
theorem missing_pillow_witness :
    (run envNoPillow).exitCode = 1 ∧
    (run envNoPillow).stderrLines =
      ["Pillow library not found. Please install it using \x27pip install Pillow\x27"] ∧
    (run envNoPillow).stdoutLines = [] ∧
    (run envNoPillow).files = envNoPillow.files ∧
    (run envNoPillow).unhandledFault = none :=
  missing_pillow envNoPillow rfl

/-- C5. On every successful run the saved image has a white pixel at
(0, 0) and a blue pixel at (width / 2, height / 2) = (800, 450). -/
theorem probe_pixels (e : Env)
    (h1 : e.pillowAvailable = true) (h2 : e.saveFault = none) :
    ∃ img, (run e).files outputFileName = some img ∧
      img.pix 0 0 = whiteColor ∧
      img.pix (width / 2) (height / 2) = blueColor := by
  refine ⟨finalImage, by simp [run, h1, h2], ?_, ?_⟩
  · rw [finalImage_pix]; decide
  · show finalImage.pix 800 450 = blueColor
    rw [finalImage_pix]; decide

/-- Witness for C5 in the concrete environment env0. -/
theorem probe_pixels_witness :
    ∃ img, (run env0).files outputFileName = some img ∧
      img.pix 0 0 = whiteColor ∧
      img.pix (width / 2) (height / 2) = blueColor :=
  probe_pixels env0 rfl rfl

/-- C6. Determinism: two successful runs produce identical "test.png"
content even from environments that differ in prior directory content,
ambient time and randomness; in particular a second run over the first
run output directory overwrites "test.png" with identical content. -/
theorem deterministic (e1 e2 : Env)
    (h1 : e1.pillowAvailable = true) (h1' : e1.saveFault = none)
    (h2 : e2.pillowAvailable = true) (h2' : e2.saveFault = none) :
    (run e1).files outputFileName = (run e2).files outputFileName ∧
    (run { e1 with files := (run e1).files }).files outputFileName
      = (run e1).files outputFileName := by
  constructor <;> simp [run, h1, h1', h2, h2']

/-- Witness for C6: env0 and env1 differ in prior files, time and seed,
yet the runs agree on "test.png"; rerunning from the env0 output agrees
too. -/
theorem deterministic_witness :
    (run env0).files outputFileName = (run env1).files outputFileName ∧
    (run { env0 with files := (run env0).files }).files outputFileName
      = (run env0).files outputFileName :=
  deterministic env0 env1 rfl rfl rfl rfl

/-- C7. Frame of a successful run: standard output holds exactly the
confirmation line, standard error is empty, the exit status is 0, the
file "test.png" is written, and every other file is untouched. -/
theorem success_frame (e : Env)
    (h1 : e.pillowAvailable = true) (h2 : e.saveFault = none) :
    (run e).stdoutLines = ["Image \x27test.png\x27 generated successfully."] ∧
    (run e).stderrLines = [] ∧
    (run e).exitCode = 0 ∧
    (run e).files outputFileName = some finalImage ∧
    (∀ n, n ≠ outputFileName → (run e).files n = e.files n) := by
  refine ⟨by simp [run, h1, h2, successMsg], by simp [run, h1, h2],
    by simp [run, h1, h2], by simp [run, h1, h2], ?_⟩
  intro n hn
  simp [run, h1, h2, hn]

/-- Witness for C7 in the concrete environment env0, checking the frame
condition at the unrelated file name "other.txt". -/
theorem success_frame_witness :
    (run env0).stdoutLines = ["Image \x27test.png\x27 generated successfully."] ∧
    (run env0).files "other.txt" = env0.files "other.txt" :=
  ⟨(success_frame env0 rfl rfl).1,
    (success_frame env0 rfl rfl).2.2.2.2 "other.txt" (by decide)⟩

/-- C8. The ImportError handler at lines 2-6 is the only handler in the
program: it catches exactly ImportError, and a fault raised later (for
example by image.save) is caught nowhere, so it escapes as an unhandled
fault terminating the process without writing the file or printing the
confirmation. -/
theorem only_import_error_handled :
    caughtByImportHandler .importError = true ∧
    (∀ k, k ≠ ExcKind.importError → caughtByImportHandler k = false) ∧
    (∀ (e : Env) (k : ExcKind),
      e.pillowAvailable = true → e.saveFault = some k →
        (run e).unhandledFault = some k ∧
        (run e).files = e.files ∧
        (run e).stdoutLines = []) := by
  refine ⟨rfl, ?_, ?_⟩
  · intro k hk
    cases k with
    | importError => exact absurd rfl hk
    | osError => rfl
    | memoryError => rfl
    | otherError => rfl
  · intro e k h1 h2
    simp [run, h1, h2]

/-- Witness for C8: an OS error raised by image.save in the concrete
environment envSaveFault escapes uncaught. -/
theorem only_import_error_handled_witness :
    caughtByImportHandler ExcKind.osError = false ∧
    (run envSaveFault).unhandledFault = some ExcKind.osError ∧
    (run envSaveFault).files = envSaveFault.files ∧
    (run envSaveFault).stdoutLines = [] :=
  ⟨only_import_error_handled.2.1 ExcKind.osError (by decide),
    (only_import_error_handled.2.2 envSaveFault ExcKind.osError rfl rfl).1,
    (only_import_error_handled.2.2 envSaveFault ExcKind.osError rfl rfl).2.1,
    (only_import_error_handled.2.2 envSaveFault ExcKind.osError rfl rfl).2.2⟩

end GenerateImage
